import Mathlib

/-!
Verification of the analytics/reporting engine of the pv-monitoring-platform
AI service (src/ai).  Rows and numeric values are modelled over `ℚ`; nullable
SQL/pandas values are modelled as `Option ℚ`; calendar dates are modelled as
day indices (`ℕ`).  Python float literals (1.1, 0.9, 0.15, ...) are modelled
by the corresponding exact rationals.
-/

/-- Configuration defaults, from src/ai/config.py (class Settings). -/
structure Settings where
  anomaly_irradiance_threshold : ℚ := 50
  anomaly_result_limit : ℕ := 100
  co2_per_kwh : ℚ := 17/20
  kg_co2_per_tree_year : ℚ := 21
  default_electricity_rate : ℚ := 1/5
  reference_panel_efficiency : ℚ := 3/20
  max_performance_ratio : ℚ := 3/2
  diagnostic_issue_limit : ℕ := 20
  forecast_min_history_days : ℕ := 3

/-- The process-wide settings object (config.py: `settings = Settings()`). -/
def settings : Settings := {}

/-- Mean of a list of rationals, as pandas `Series.mean` on a non-empty
series (on an empty list it returns 0 where pandas would return NaN; all
uses below are guarded by non-emptiness, as in the source). -/
def listMean (xs : List ℚ) : ℚ := xs.sum / (xs.length : ℚ)

/-- Python `round` to an integer: round half to even (banker rounding). -/
def pyRoundInt (q : ℚ) : ℤ :=
  let f := ⌊q⌋
  let r := q - (f : ℚ)
  if r < 1/2 then f
  else if 1/2 < r then f + 1
  else if 2 ∣ f then f else f + 1

/-- Python `round(q, n)` on rationals. -/
def pyRound (n : ℕ) (q : ℚ) : ℚ := (pyRoundInt (q * 10 ^ n) : ℚ) / 10 ^ n

/-- One measurement row of the `measurements` table (src/ai: data model).
`day` is `DATE(timestamp)` and `time` the intra-day position, so timestamps
order lexicographically by `(day, time)`. -/
structure Measurement where
  loggerId : String
  loggerType : String
  day : ℕ
  time : ℕ
  activePowerWatts : Option ℚ
  energyDailyKwh : Option ℚ
  irradiance : Option ℚ
deriving DecidableEq, Repr

/-- Rows of a device (`WHERE loggerId = :logger_id`). -/
def rowsFor (db : List Measurement) (lid : String) : List Measurement :=
  db.filter (fun m => m.loggerId == lid)

/-- Smart-recovery lower bound: `MIN(timestamp)::date` for a device. -/
def minDataDay (db : List Measurement) (lid : String) : Option ℕ :=
  ((rowsFor db lid).map (·.day)).min?

/-- Smart-recovery upper bound: `MAX(timestamp)::date` for a device. -/
def maxDataDay (db : List Measurement) (lid : String) : Option ℕ :=
  ((rowsFor db lid).map (·.day)).max?

/-- Status vocabulary (src/ai/models/enums.py, DataStatus). -/
inductive DataStatus
  | ok
  | no_data
  | no_data_in_window
deriving DecidableEq, Repr

/-- Available data range for smart recovery (models/responses.py). The source
field `end` is a Lean keyword, rendered `end_`. -/
structure AvailableRange where
  start : Option ℕ
  end_ : Option ℕ
deriving DecidableEq, Repr

-- ============================================================
-- analyze_inverter_health (src/ai/tools/monitoring.py:347-430)
-- ============================================================

/-- One row of the health-analysis query result (timestamp, power,
irradiance), as consumed by `analyze_inverter_health`. -/
structure HealthRow where
  timestamp : ℕ
  activePowerWatts : Option ℚ
  irradiance : Option ℚ
deriving DecidableEq, Repr

/-- The anomaly mask of monitoring.py:398-401:
`((df.activePowerWatts == 0) | (df.activePowerWatts.isna())) & (df.irradiance > threshold)`
(a null irradiance compares as False in pandas). -/
def isDaytimeOutage (threshold : ℚ) (r : HealthRow) : Bool :=
  (r.activePowerWatts == some 0 || r.activePowerWatts == none) &&
    (match r.irradiance with
     | some irr => decide (threshold < irr)
     | none => false)

/-- Result fields of `analyze_inverter_health` relevant to anomaly counting. -/
structure AnomalyReport where
  totalRecords : ℕ
  anomalyCount : ℕ
  points : List HealthRow
deriving DecidableEq, Repr

/-- The non-empty-result branch of `analyze_inverter_health`
(monitoring.py:396-430): filter the anomaly mask, report the count of all
flagged rows, and truncate the returned points to `anomaly_result_limit`. -/
def analyze_inverter_health (s : Settings) (rows : List HealthRow) : AnomalyReport :=
  let anomalies := rows.filter (isDaytimeOutage s.anomaly_irradiance_threshold)
  { totalRecords := rows.length
    anomalyCount := anomalies.length
    points := anomalies.take s.anomaly_result_limit }

-- ============================================================
-- _calculate_power_curve_stats trend (monitoring.py:323-336)
-- ============================================================

/-- Trend classification of `_calculate_power_curve_stats`
(monitoring.py:323-336): split the (already NaN-dropped) power series at
`mid = len // 2`; rising when the second-half mean exceeds 1.1 times the
first-half mean, falling when below 0.9 times, else stable; with `mid = 0`
(fewer than 2 points) default to stable. -/
def computeTrend (power : List ℚ) : String :=
  let mid := power.length / 2
  if 0 < mid then
    let firstHalf := listMean (power.take mid)
    let secondHalf := listMean (power.drop mid)
    if firstHalf * (11/10) < secondHalf then "rising"
    else if secondHalf < firstHalf * (9/10) then "falling"
    else "stable"
  else "stable"

/-- The example power series of spec.md section 8. -/
def exampleSeries : List ℚ :=
  [0, 500, 1200, 2500, 3800, 4200, 3900, 2800, 1500, 400]

-- ============================================================
-- get_power_curve status / smart recovery (monitoring.py:433-520)
-- ============================================================

/-- Fields of `PowerCurveResponse` needed for the status invariants.  On the
success path the source leaves `status` and `availableRange` at their pydantic
default `None`. -/
structure PowerCurveReport where
  status : Option DataStatus
  availableRange : Option AvailableRange
  data : List Measurement
deriving DecidableEq, Repr

/-- Rows of `build_power_curve_query`: device rows with
`DATE(timestamp) = date`, ordered by timestamp (order preserved from db). -/
def powerCurveRows (db : List Measurement) (lid : String) (date : ℕ) : List Measurement :=
  db.filter (fun m => m.loggerId == lid && m.day == date)

/-- Status and smart-recovery behaviour of `get_power_curve`
(monitoring.py:451-482): on an empty result the min/max-timestamp range query
is issued for the device; a missing minimum means `no_data` with a null
range, otherwise `no_data_in_window` with the recovered range.  The
downsampling and narrative parts of the success path are not needed by the
claims and are elided; `data` keeps the fetched rows. -/
def get_power_curve (db : List Measurement) (lid : String) (date : ℕ) : PowerCurveReport :=
  let df := powerCurveRows db lid date
  if df.isEmpty then
    match minDataDay db lid, maxDataDay db lid with
    | some mn, some mx =>
        { status := some DataStatus.no_data_in_window
          availableRange := some { start := some mn, end_ := some mx }
          data := [] }
    | _, _ =>
        { status := some DataStatus.no_data
          availableRange := some { start := none, end_ := none }
          data := [] }
  else
    { status := none, availableRange := none, data := df }

-- ============================================================
-- compare_loggers status / smart recovery (comparison.py:29-139)
-- ============================================================

/-- Fields of `ComparisonResponse` needed for the status invariants, plus the
`type = error` early return of the 2-5 id guard. -/
structure ComparisonReport where
  isError : Bool
  status : Option DataStatus
  availableRange : Option AvailableRange
deriving DecidableEq, Repr

/-- Rows matching `loggerId = ANY(logger_ids)` with the optional date filter
of `build_comparison_query`. -/
def comparisonRows (db : List Measurement) (ids : List String) (date : Option ℕ) :
    List Measurement :=
  db.filter (fun m =>
    ids.contains m.loggerId &&
      (match date with
       | some d => m.day == d
       | none => true))

/-- Days carrying data of any of the requested ids: the smart-recovery
range query of comparison.py:60-64 (`loggerId = ANY(:logger_ids)`). -/
def comparisonKeyDays (db : List Measurement) (ids : List String) : List ℕ :=
  (db.filter (fun m => ids.contains m.loggerId)).map (·.day)

/-- Guard, status and smart-recovery behaviour of `compare_loggers`
(comparison.py:48-90): fewer than 2 or more than 5 ids is an immediate error
report; on an empty result the min/max range query runs over all requested
ids.  The pivot/resample success path is elided (its narrative context is
modelled separately by `build_comparison_context`). -/
def compare_loggers (db : List Measurement) (ids : List String) (date : Option ℕ) :
    ComparisonReport :=
  if ids.length < 2 || 5 < ids.length then
    { isError := true, status := none, availableRange := none }
  else
    let df := comparisonRows db ids date
    if df.isEmpty then
      match (comparisonKeyDays db ids).min?, (comparisonKeyDays db ids).max? with
      | some mn, some mx =>
          { isError := false
            status := some DataStatus.no_data_in_window
            availableRange := some { start := some mn, end_ := some mx } }
      | _, _ =>
          { isError := false
            status := some DataStatus.no_data
            availableRange := some { start := none, end_ := none } }
    else
      { isError := false, status := none, availableRange := none }

-- ============================================================
-- calculate_performance_ratio (performance.py:30-161, builders.py:158-172)
-- ============================================================

/-- Row filter of `build_performance_query` (builders.py:158-172): device
rows of the requested date with `activePowerWatts IS NOT NULL`,
`irradiance IS NOT NULL` and `irradiance > 0`.  Note: there is no condition
on the sign of the power value. -/
def performanceQueryRows (db : List Measurement) (lid : String) (date : ℕ) :
    List Measurement :=
  db.filter (fun m =>
    m.loggerId == lid && m.day == date && m.activePowerWatts.isSome &&
      (match m.irradiance with
       | some v => decide (0 < v)
       | none => false))

/-- Modelled from the spec: the row filter as spec.md section 4.2 words it
for `calculate_performance_ratio` ("filter rows to power>0 ∧ irradiance>0"),
for comparison with `performanceQueryRows`. -/
def specPerformanceRows (db : List Measurement) (lid : String) (date : ℕ) :
    List Measurement :=
  db.filter (fun m =>
    m.loggerId == lid && m.day == date &&
      (match m.activePowerWatts with
       | some p => decide (0 < p)
       | none => false) &&
      (match m.irradiance with
       | some v => decide (0 < v)
       | none => false))

/-- pandas `Series.clip(lo, hi)` on one value. -/
def clip (lo hi x : ℚ) : ℚ := max lo (min x hi)

/-- Per-row clipped performance ratio (performance.py:107-111):
`theoretical = irradiance * capacity_kw * reference_efficiency * 10`,
`ratio = power / theoretical`, clipped to `[0, max_performance_ratio]`.
The query guarantees both fields non-null; `getD 0` is the total default. -/
def perfRatio (s : Settings) (capacityKw : ℚ) (m : Measurement) : ℚ :=
  let power := m.activePowerWatts.getD 0
  let irr := m.irradiance.getD 0
  let theoretical := irr * capacityKw * s.reference_panel_efficiency * 10
  clip 0 s.max_performance_ratio (power / theoretical)

/-- Overall PR percentage (performance.py:118): mean of the clipped ratios
times 100. -/
def prPercent (s : Settings) (capacityKw : ℚ) (rows : List Measurement) : ℚ :=
  listMean (rows.map (perfRatio s capacityKw)) * 100

/-- Status and available-range fields shared by the smart-recovery branches
of the status-carrying reports. -/
structure StatusRange where
  status : Option DataStatus
  availableRange : Option AvailableRange
deriving DecidableEq, Repr

/-- Rows of `build_health_analysis_query` (builders.py:54-72): device rows
with `timestamp >= NOW() - days` (sub-day offsets of the interval are
abstracted to whole days). -/
def healthWindowRows (db : List Measurement) (lid : String) (nowDay days : ℕ) :
    List Measurement :=
  db.filter (fun m => m.loggerId == lid && decide (nowDay ≤ m.day + days))

/-- Status and smart-recovery behaviour of the empty-result branch of
`analyze_inverter_health` (monitoring.py:365-394): same range query and
branches as `get_power_curve`. -/
def analyze_inverter_health_status (db : List Measurement) (lid : String)
    (nowDay days : ℕ) : StatusRange :=
  let df := healthWindowRows db lid nowDay days
  if df.isEmpty then
    match minDataDay db lid, maxDataDay db lid with
    | some mn, some mx =>
        { status := some DataStatus.no_data_in_window
          availableRange := some { start := some mn, end_ := some mx } }
    | _, _ =>
        { status := some DataStatus.no_data
          availableRange := some { start := none, end_ := none } }
  else
    { status := none, availableRange := none }

/-- Status and smart-recovery behaviour of the empty-result branch of
`calculate_performance_ratio` (performance.py:70-100): the main query result
is `performanceQueryRows`; the range query and branches are those of
`get_power_curve`. -/
def calculate_performance_ratio_status (db : List Measurement) (lid : String)
    (date : ℕ) : StatusRange :=
  let df := performanceQueryRows db lid date
  if df.isEmpty then
    match minDataDay db lid, maxDataDay db lid with
    | some mn, some mx =>
        { status := some DataStatus.no_data_in_window
          availableRange := some { start := some mn, end_ := some mx } }
    | _, _ =>
        { status := some DataStatus.no_data
          availableRange := some { start := none, end_ := none } }
  else
    { status := none, availableRange := none }

-- ============================================================
-- calculate_financial_savings (financial.py:28-100, builders.py:129-142)
-- ============================================================

/-- Device rows inside the requested date window carrying a non-null
`energyDailyKwh` (the WHERE clause of `build_financial_query`). -/
def financialSourceRows (db : List Measurement) (lid : String) (startD endD : ℕ) :
    List Measurement :=
  db.filter (fun m =>
    m.loggerId == lid && decide (startD ≤ m.day) && decide (m.day ≤ endD) &&
      m.energyDailyKwh.isSome)

/-- MAX(energyDailyKwh) of a device within one calendar day (0 never occurs:
only days with at least one non-null row are queried). -/
def dailyMaxKwh (db : List Measurement) (lid : String) (d : ℕ) : ℚ :=
  (((db.filter (fun m => m.loggerId == lid && m.day == d)).filterMap
      (·.energyDailyKwh)).max?).getD 0

/-- Result rows of `build_financial_query`: one `(date, MAX(energyDailyKwh))`
row per calendar day of the window that has energy data, ordered by date. -/
def financialRows (db : List Measurement) (lid : String) (startD endD : ℕ) :
    List (ℕ × ℚ) :=
  ((List.range' startD (endD + 1 - startD)).filter
      (fun d => (financialSourceRows db lid startD endD).any (·.day == d))).map
    (fun d => (d, dailyMaxKwh db lid d))

/-- Fields of `FinancialReportResponse` (models/responses.py:154-168).  The
response model has no `status` and no `availableRange` field. -/
structure FinancialReport where
  daysWithData : Option ℕ
  totalEnergyKwh : Option ℚ
  electricityRateUsd : Option ℚ
  savingsUsd : Option ℚ
  co2OffsetKg : Option ℚ
  treesEquivalent : Option ℚ
  message : Option String
deriving DecidableEq, Repr

/-- The constant no-data result of `calculate_financial_savings`
(financial.py:64-69): a bare message, produced without any smart-recovery
range query. -/
def financialNoDataReport : FinancialReport :=
  { daysWithData := none
    totalEnergyKwh := none
    electricityRateUsd := none
    savingsUsd := none
    co2OffsetKg := none
    treesEquivalent := none
    message := some ("No energy data found for the specified period") }

/-- Computation of `calculate_financial_savings` (financial.py:55-100): sum
the per-day maxima, multiply by the rate and the CO2 factors, round to the
documented places. -/
def calculate_financial_savings (s : Settings) (db : List Measurement) (lid : String)
    (startD endD : ℕ) (rate : ℚ) : FinancialReport :=
  let df := financialRows db lid startD endD
  if df.isEmpty then financialNoDataReport
  else
    let totalKwh := (df.map (·.2)).sum
    let savingsUsd := totalKwh * rate
    let co2OffsetKg := totalKwh * s.co2_per_kwh
    let treesEquivalent := co2OffsetKg / s.kg_co2_per_tree_year
    { daysWithData := some df.length
      totalEnergyKwh := some (pyRound 2 totalKwh)
      electricityRateUsd := some rate
      savingsUsd := some (pyRound 2 savingsUsd)
      co2OffsetKg := some (pyRound 2 co2OffsetKg)
      treesEquivalent := some (pyRound 1 treesEquivalent)
      message := none }

-- ============================================================
-- forecast_production (forecasting.py:33-114, builders.py:178-190)
-- ============================================================

/-- Result rows of `build_forecast_query`: per-day maxima of the last 14
days before `nowDay` (the query uses SQL `NOW()`), days with data only. -/
def forecastRows (db : List Measurement) (lid : String) (nowDay : ℕ) : List (ℕ × ℚ) :=
  ((List.range' (nowDay - 14) 15).filter
      (fun d => (db.filter (fun m =>
          m.loggerId == lid && m.day == d && m.energyDailyKwh.isSome)).length ≠ 0)).map
    (fun d => (d, dailyMaxKwh db lid d))

/-- Fields of `ProductionForecastResponse` needed by the claims; the response
model has no `status` and no `availableRange` field. -/
structure ForecastReport where
  basedOnDays : Option ℕ
  expectedKwh : Option ℚ
  message : Option String
deriving DecidableEq, Repr

/-- The no-data result of `forecast_production` (forecasting.py:51-55): a
bare insufficient-history message, produced without any smart-recovery range
query. -/
def forecastNoDataReport (s : Settings) : ForecastReport :=
  { basedOnDays := none
    expectedKwh := none
    message := some ("Insufficient historical data for forecasting (need at least "
        ++ toString s.forecast_min_history_days ++ " days)") }

/-- Empty / short-history branch of `forecast_production` and the
historical-average forecast value (the per-day statistics beyond the mean
are not needed by the claims). -/
def forecast_production (s : Settings) (db : List Measurement) (lid : String)
    (nowDay : ℕ) : ForecastReport :=
  let df := forecastRows db lid nowDay
  if df.length < s.forecast_min_history_days then forecastNoDataReport s
  else
    { basedOnDays := some df.length
      expectedKwh := some (pyRound 2 (listMean (df.map (·.2))))
      message := none }

-- ============================================================
-- _build_comparison_context (comparison.py:142-290)
-- ============================================================

/-- Best/worst accumulator of the loop at comparison.py:157-170.  `none`
stands for the Python sentinels `float(-inf)` / `float(inf)` together with
`best_logger = worst_logger = None`. -/
structure BestWorst where
  best : Option (String × ℚ)
  worst : Option (String × ℚ)
deriving DecidableEq, Repr

/-- One iteration of the best/worst loop: strict comparison against the
current extremum, first occurrence kept on ties. -/
def stepBestWorst (acc : BestWorst) (p : String × ℚ) : BestWorst :=
  let acc1 :=
    match acc.best with
    | none => { acc with best := some p }
    | some (_, bv) => if bv < p.2 then { acc with best := some p } else acc
  match acc1.worst with
  | none => { acc1 with worst := some p }
  | some (_, wv) => if p.2 < wv then { acc1 with worst := some p } else acc1

/-- Best and worst performer by average value over the per-device stats, in
dict iteration (insertion) order. -/
def bestWorst (stats : List (String × ℚ)) : BestWorst :=
  stats.foldl stepBestWorst { best := none, worst := none }

/-- Python truthiness of the `best_logger` / `worst_logger` variables: set
and a non-empty string. -/
def truthyLogger (o : Option (String × ℚ)) : Bool :=
  match o with
  | some (s, _) => s ≠ ""
  | none => false

/-- Spread computation of comparison.py:172-175: guarded by
`best_value > 0 and worst_value < inf`; the division by `best_value` is only
reached under the guard, otherwise the spread stays 0. -/
def spreadPercent (bw : BestWorst) : ℚ :=
  match bw.best, bw.worst with
  | some (_, bv), some (_, wv) => if 0 < bv then ((bv - wv) / bv) * 100 else 0
  | _, _ => 0

/-- Which summary template the branch at comparison.py:179-196 selects. -/
inductive Framing
  | consistent
  | leaderTrailer
  | significant
  | generic
deriving DecidableEq, Repr

/-- Which of the three insight builders of comparison.py:202-234 produced an
insight. -/
inductive CInsightKind
  | topPerformer
  | underperformer
  | consistency
deriving DecidableEq, Repr, BEq

/-- An insight of the comparison context, keeping its origin, exact title
and severity; the float-formatted description/metric strings are elided. -/
structure CInsight where
  kind : CInsightKind
  title : String
  severity : String
deriving DecidableEq, Repr

/-- Comparison context fields the claims are about: the summary framing, the
insight list (capped to 3), and the alert. -/
structure ComparisonContext where
  framing : Framing
  insights : List CInsight
  alert : Option String
deriving DecidableEq, Repr

/-- Numeric rendering of a Python f-string `.0f` field (round half to
even). -/
def fmtQ0 (q : ℚ) : String := toString (pyRoundInt q)

/-- Faithful model of `_build_comparison_context` (comparison.py:142-290) on
the per-device average stats (`logger_stats`, insertion-ordered): best/worst
fold, guarded spread, summary framing, insight selection and the >40% alert.
Next steps and the UI suggestion are not needed by the claims. -/
def build_comparison_context (stats : List (String × ℚ)) : ComparisonContext :=
  let bw := bestWorst stats
  let sp := spreadPercent bw
  let framing :=
    if 2 ≤ stats.length && truthyLogger bw.best && truthyLogger bw.worst then
      if sp < 10 then Framing.consistent
      else if sp < 30 then Framing.leaderTrailer
      else Framing.significant
    else Framing.generic
  let bestInsight :=
    match bw.best with
    | some (b, _) =>
        if b ≠ "" && stats.any (·.1 == b) then
          [{ kind := CInsightKind.topPerformer
             title := "Top performer: " ++ b
             severity := "info" : CInsight }]
        else []
    | none => []
  let worstInsight :=
    match bw.worst with
    | some (w, _) =>
        if w ≠ "" && (match bw.best with
            | some (b, _) => w ≠ b
            | none => true) && 15 < sp then
          [{ kind := CInsightKind.underperformer
             title := "Underperformer: " ++ w
             severity := if 30 < sp then "warning" else "info" : CInsight }]
        else []
    | none => []
  let consistencyInsight :=
    if sp < 10 && 2 ≤ stats.length then
      [{ kind := CInsightKind.consistency
         title := "Consistent fleet performance"
         severity := "info" : CInsight }]
    else []
  let alert :=
    if 40 < sp then
      match bw.worst with
      | some (w, _) =>
          some (w ++ " is underperforming by " ++ fmtQ0 sp ++ "%")
      | none => some ("None is underperforming by " ++ fmtQ0 sp ++ "%")
    else none
  { framing := framing
    insights := (bestInsight ++ worstInsight ++ consistencyInsight).take 3
    alert := alert }

/-- Whether a comparison context contains an underperformer insight. -/
def hasUnderperformerInsight (c : ComparisonContext) : Bool :=
  c.insights.any (fun i =>
    match i.kind with
    | CInsightKind.underperformer => true
    | _ => false)

-- ============================================================
-- get_fleet_overview / _build_fleet_context (fleet.py:37-303)
-- ============================================================

/-- Modelled from the spec: `DateMismatchInfo` is imported from
models.responses but its class definition is not present under src/; fields
are those of its construction site (fleet.py:116-121) and the spec wording
of the date-mismatch note. -/
structure DateMismatchInfo where
  requestedDate : ℕ
  actualDataDate : ℕ
  daysDifference : ℤ
  isHistorical : Bool
deriving DecidableEq, Repr

/-- Date-mismatch detection of `get_fleet_overview` (fleet.py:109-121): a
mismatch is recorded exactly when the wall-clock date is strictly after the
anchor date, always with `isHistorical = True`. -/
def mkDateMismatch (currentDay anchorDay : ℕ) : Option DateMismatchInfo :=
  let daysDiff : ℤ := (currentDay : ℤ) - (anchorDay : ℤ)
  if 0 < daysDiff then
    some { requestedDate := currentDay
           actualDataDate := anchorDay
           daysDifference := daysDiff
           isHistorical := true }
  else none

/-- Fleet health classification of fleet.py:83-88. -/
def fleetHealthOf (percentOnline : ℚ) : String :=
  if 90 < percentOnline then "Healthy"
  else if 50 < percentOnline then "Degraded"
  else "Critical"

/-- Pluralisation helper used by the fleet date-mismatch texts. -/
def daysText (n : ℤ) : String := if n == 1 then "day" else "days"

/-- The date-mismatch warning prefixed to the fleet summary
(fleet.py:160-167); empty when there is no historical mismatch. -/
def dateWarning (dm : Option DateMismatchInfo) : String :=
  match dm with
  | some info =>
      if info.isHistorical then
        "Note: This data is from " ++ toString info.actualDataDate ++ " ("
          ++ toString info.daysDifference ++ " " ++ daysText info.daysDifference
          ++ " ago). "
      else ""
  | none => ""

/-- Numeric rendering of a Python f-string `.1f` field. -/
def fmtQ1 (q : ℚ) : String :=
  let n := pyRoundInt (q * 10)
  toString (n / 10) ++ "." ++ toString (n % 10).natAbs

/-- The health-dependent body of the fleet summary (fleet.py:169-184),
without the date-warning prefix. -/
def fleetBaseSummary (totalLoggers activeLoggers : ℕ) (totalPower totalEnergy : ℚ)
    (fleetHealth : String) : String :=
  let powerKw := totalPower / 1000
  let offlineCount := totalLoggers - activeLoggers
  if fleetHealth == "Healthy" then
    "Your solar site is running smoothly! All " ++ toString activeLoggers
      ++ " inverters are online and generating " ++ fmtQ1 powerKw
      ++ " kW of clean power. You\x27ve already produced " ++ fmtQ1 totalEnergy
      ++ " kWh today."
  else if fleetHealth == "Degraded" then
    "Your site is generating " ++ fmtQ1 powerKw ++ " kW, but "
      ++ toString offlineCount ++ " of your " ++ toString totalLoggers
      ++ " inverters appear to be offline. Today\x27s production is "
      ++ fmtQ1 totalEnergy ++ " kWh so far."
  else
    "Attention needed: Only " ++ toString activeLoggers ++ " of "
      ++ toString totalLoggers ++ " inverters are online. Your site is generating just "
      ++ fmtQ1 powerKw ++ " kW. Check your system status."

/-- The date-mismatch alert text of fleet.py:291-293. -/
def fleetMismatchAlert (info : DateMismatchInfo) : String :=
  "Showing data from " ++ toString info.actualDataDate ++ " ("
    ++ toString info.daysDifference ++ " " ++ daysText info.daysDifference
    ++ " ago)"

/-- The critical-health alert text of fleet.py:294-295. -/
def fleetCriticalAlert (percentOnline : ℚ) : String :=
  "Only " ++ fmtQ0 percentOnline ++ "% of devices online"

/-- Fleet context fields the claims are about. -/
structure FleetContext where
  summary : String
  alert : Option String
deriving DecidableEq, Repr

/-- Summary and alert of `_build_fleet_context` (fleet.py:145-303): the
summary is the date warning prefixed to the health-dependent body; the alert
is the date-mismatch note when a historical mismatch exists, else the
percent-online note when fleet health is Critical, else none.  Insights,
next steps and the UI suggestion are not needed by the claims. -/
def build_fleet_context (totalLoggers activeLoggers : ℕ) (percentOnline : ℚ)
    (fleetHealth : String) (totalPower totalEnergy : ℚ)
    (dm : Option DateMismatchInfo) : FleetContext :=
  let warning := dateWarning dm
  let base := fleetBaseSummary totalLoggers activeLoggers totalPower totalEnergy fleetHealth
  let alert :=
    if (match dm with
        | some info => info.isHistorical
        | none => false) then
      match dm with
      | some info => some (fleetMismatchAlert info)
      | none => none
    else if fleetHealth == "Critical" then
      some (fleetCriticalAlert percentOnline)
    else none
  { summary := warning ++ base, alert := alert }

-- ============================================================
-- diagnose_error_codes (diagnostics.py:29-144)
-- ============================================================

/-- One row of `build_error_scan_query` as consumed by the parsing loop: the
timestamp and the `errorCode` field of the metadata blob when the blob is a
dict carrying one (rows arrive ordered by timestamp DESC). -/
structure ScanRow where
  timestamp : ℕ
  errorCode : Option String
deriving DecidableEq, Repr

/-- Aggregated occurrence statistics of one error code
(diagnostics.py:61-74). -/
structure ErrorStat where
  code : String
  count : ℕ
  firstSeen : ℕ
  lastSeen : ℕ
deriving DecidableEq, Repr

/-- One step of the error-count loop (diagnostics.py:63-74): a fresh code is
appended (Python dicts preserve insertion order), a known code has its count
bumped and its `lastSeen` replaced by the timestamp of the current row. -/
def updateCounts (acc : List ErrorStat) (row : ScanRow) : List ErrorStat :=
  match row.errorCode with
  | none => acc
  | some code =>
      if acc.any (·.code == code) then
        acc.map (fun e =>
          if e.code == code then
            { e with count := e.count + 1, lastSeen := row.timestamp }
          else e)
      else
        acc ++ [{ code := code, count := 1
                  firstSeen := row.timestamp, lastSeen := row.timestamp }]

/-- The `error_counts` accumulation over all scanned rows. -/
def errorCounts (rows : List ScanRow) : List ErrorStat :=
  rows.foldl updateCounts []

/-- Static error definition entry (error_codes.py, ErrorDefinition). -/
structure ErrorDefinition where
  description : String
  severity : String
  fix : String
deriving DecidableEq, Repr

/-- One issue of the diagnostics report (models/responses.py:238-247). -/
structure DiagnosticIssue where
  code : String
  description : String
  severity : String
  occurrences : ℕ
  firstSeen : ℕ
  lastSeen : ℕ
  suggestedFix : String
deriving DecidableEq, Repr

/-- Severity rank of the sort at diagnostics.py:107 (`severity_order`),
with 3 as the `dict.get` default. -/
def severityOrder (s : String) : ℕ :=
  if s == "critical" then 0
  else if s == "warning" then 1
  else if s == "info" then 2
  else 3

/-- Issue construction (diagnostics.py:77-104): look the code up in the
static per-device-type table, defaulting to the generic unknown-code entry. -/
def mkIssue (defs : String → Option ErrorDefinition) (e : ErrorStat) : DiagnosticIssue :=
  let d := (defs e.code).getD
    { description := "Unknown error code: " ++ e.code
      severity := "warning"
      fix := "Consult manufacturer documentation" }
  { code := e.code
    description := d.description
    severity := d.severity
    occurrences := e.count
    firstSeen := e.firstSeen
    lastSeen := e.lastSeen
    suggestedFix := d.fix }

/-- The sort key order of diagnostics.py:108: severity rank ascending, then
occurrence count descending (the stable Python sort on the key tuple
`(severity_order, -occurrences)`). -/
def issueLE (a b : DiagnosticIssue) : Bool :=
  severityOrder a.severity < severityOrder b.severity ||
    (severityOrder a.severity == severityOrder b.severity &&
      b.occurrences ≤ a.occurrences)

/-- Diagnostics report fields the claims are about. -/
structure DiagnosticsReport where
  overallHealth : String
  issueCount : ℕ
  issues : List DiagnosticIssue
deriving DecidableEq, Repr

/-- The found-device path of `diagnose_error_codes` (diagnostics.py:56-144):
aggregate the scanned error codes, build the issue list, sort it stably by
severity rank then descending count, compute the overall health, report the
full issue count and truncate the issue list to `diagnostic_issue_limit`. -/
def diagnose_error_codes (s : Settings) (defs : String → Option ErrorDefinition)
    (rows : List ScanRow) : DiagnosticsReport :=
  let issues0 := (errorCounts rows).map (mkIssue defs)
  let issues := issues0.mergeSort issueLE
  let overallHealth :=
    if issues.any (·.severity == "critical") then "critical"
    else if issues.any (·.severity == "warning") then "warning"
    else if !issues.isEmpty then "info"
    else "good"
  { overallHealth := overallHealth
    issueCount := issues.length
    issues := issues.take s.diagnostic_issue_limit }

-- ============================================================
-- Concrete example data used by counterexamples and witnesses
-- ============================================================

/-- A batch of 101 rows that are all daytime outages (power 0 at irradiance
100), exceeding the default result cap of 100. -/
def manyOutageRows : List HealthRow :=
  List.replicate 101 { timestamp := 0, activePowerWatts := some 0, irradiance := some 100 }

/-- Two same-day rows of device A: one producing 1500 W at 1000 W/m2 and one
at 0 W under the same irradiance. -/
def perfExampleDB : List Measurement :=
  [{ loggerId := "A", loggerType := "goodwe", day := 0, time := 0
     activePowerWatts := some 1500, energyDailyKwh := none, irradiance := some 1000 },
   { loggerId := "A", loggerType := "goodwe", day := 0, time := 1
     activePowerWatts := some 0, energyDailyKwh := none, irradiance := some 1000 }]

/-- Device A has energy data on day 10 only. -/
def outOfWindowDB : List Measurement :=
  [{ loggerId := "A", loggerType := "goodwe", day := 10, time := 0
     activePowerWatts := some 100, energyDailyKwh := some 5, irradiance := some 300 }]

/-- Device A with three days of energy data whose per-day maxima are 45.5,
52.3 and 48.7 kWh (each day also carries a smaller cumulative reading, so
the MAX aggregation is exercised). -/
def financialExampleDB : List Measurement :=
  [{ loggerId := "A", loggerType := "goodwe", day := 1, time := 0
     activePowerWatts := none, energyDailyKwh := some 20, irradiance := none },
   { loggerId := "A", loggerType := "goodwe", day := 1, time := 1
     activePowerWatts := none, energyDailyKwh := some (91/2), irradiance := none },
   { loggerId := "A", loggerType := "goodwe", day := 2, time := 0
     activePowerWatts := none, energyDailyKwh := some (523/10), irradiance := none },
   { loggerId := "A", loggerType := "goodwe", day := 2, time := 1
     activePowerWatts := none, energyDailyKwh := some 50, irradiance := none },
   { loggerId := "A", loggerType := "goodwe", day := 3, time := 0
     activePowerWatts := none, energyDailyKwh := some (487/10), irradiance := none }]

/-- Device A with measurement rows on days 5 and 7 (used for the range
invariants: requesting day 9 is outside the known range). -/
def rangeExampleDB : List Measurement :=
  [{ loggerId := "A", loggerType := "goodwe", day := 5, time := 0
     activePowerWatts := some 10, energyDailyKwh := some 1, irradiance := some 100 },
   { loggerId := "A", loggerType := "goodwe", day := 7, time := 0
     activePowerWatts := some 20, energyDailyKwh := some 2, irradiance := some 200 }]

-- ============================================================
-- Theorems
-- ============================================================

/-- C1: for `analyze_inverter_health` on a non-empty result set, a row is
flagged as an anomaly iff (activePowerWatts is 0 or null) and irradiance
exceeds the threshold, and the reported anomalyCount equals the number of
flagged rows before the points list is truncated to the configured cap, for
every input row set. -/
theorem c1_anomaly_rule_and_count (s : Settings) (rows : List HealthRow)
    (h : rows ≠ []) :
    (∀ r ∈ rows,
        isDaytimeOutage s.anomaly_irradiance_threshold r = true ↔
          ((r.activePowerWatts = some 0 ∨ r.activePowerWatts = none) ∧
            ∃ v, r.irradiance = some v ∧ s.anomaly_irradiance_threshold < v)) ∧
    (analyze_inverter_health s rows).anomalyCount =
      (rows.filter (isDaytimeOutage s.anomaly_irradiance_threshold)).length ∧
    (analyze_inverter_health s rows).points =
      (rows.filter (isDaytimeOutage s.anomaly_irradiance_threshold)).take
        s.anomaly_result_limit := by
  refine ⟨?_, rfl, rfl⟩
  intro r _
  cases hirr : r.irradiance with
  | none => simp [isDaytimeOutage, hirr]
  | some v => simp [isDaytimeOutage, hirr]

/-- Witness for C1 at a concrete input with 101 flagged rows: the reported
count is 101 while the returned points are capped at 100. -/
theorem c1_anomaly_rule_and_count_witness :
    manyOutageRows ≠ [] ∧
    (analyze_inverter_health settings manyOutageRows).anomalyCount = 101 ∧
    (analyze_inverter_health settings manyOutageRows).points.length = 100 := by
  have h := c1_anomaly_rule_and_count settings manyOutageRows (by decide)
  refine ⟨by decide, ?_, by decide⟩
  rw [h.2.1]; decide

/-- C5 counterexample: on the example series of the claim the first-half
mean is 1600 (not 2000) and the second-half mean is 2560 (not 2520); the
trend is still rising. -/
theorem c5_trend_example_counterexample :
    listMean (exampleSeries.take (exampleSeries.length / 2)) = 1600 ∧
    listMean (exampleSeries.take (exampleSeries.length / 2)) ≠ 2000 ∧
    listMean (exampleSeries.drop (exampleSeries.length / 2)) = 2560 ∧
    listMean (exampleSeries.drop (exampleSeries.length / 2)) ≠ 2520 ∧
    computeTrend exampleSeries = "rising" := by
  refine ⟨by norm_num [exampleSeries, listMean], by norm_num [exampleSeries, listMean],
    by norm_num [exampleSeries, listMean], by norm_num [exampleSeries, listMean], ?_⟩
  norm_num [computeTrend, exampleSeries, listMean]

/-- C5 amended: for a power series of at least 2 points the trend compares
the second-half mean against 1.1 and 0.9 times the first-half mean (split at
`len / 2`); with fewer than 2 points the trend is stable; on the example
series the half means are 1600 and 2560 (ratio 1.6) and the trend is
rising. -/
theorem c5_trend_classification (power : List ℚ) (h2 : 2 ≤ power.length) :
    (listMean (power.take (power.length / 2)) * (11/10) <
        listMean (power.drop (power.length / 2)) →
      computeTrend power = "rising") ∧
    (listMean (power.drop (power.length / 2)) ≤
        listMean (power.take (power.length / 2)) * (11/10) →
      listMean (power.drop (power.length / 2)) <
        listMean (power.take (power.length / 2)) * (9/10) →
      computeTrend power = "falling") ∧
    (listMean (power.take (power.length / 2)) * (9/10) ≤
        listMean (power.drop (power.length / 2)) →
      listMean (power.drop (power.length / 2)) ≤
        listMean (power.take (power.length / 2)) * (11/10) →
      computeTrend power = "stable") ∧
    (∀ q : List ℚ, q.length < 2 → computeTrend q = "stable") ∧
    listMean (exampleSeries.take 5) = 1600 ∧
    listMean (exampleSeries.drop 5) = 2560 ∧
    listMean (exampleSeries.drop 5) / listMean (exampleSeries.take 5) = 8/5 ∧
    computeTrend exampleSeries = "rising" := by
  have hmid : 0 < power.length / 2 := Nat.div_pos h2 (by norm_num)
  refine ⟨?_, ?_, ?_, ?_, by norm_num [exampleSeries, listMean],
    by norm_num [exampleSeries, listMean], by norm_num [exampleSeries, listMean],
    by norm_num [computeTrend, exampleSeries, listMean]⟩
  · intro hlt
    simp only [computeTrend, if_pos hmid, if_pos hlt]
  · intro hle hlt
    simp only [computeTrend, if_pos hmid]
    rw [if_neg (by linarith), if_pos hlt]
  · intro hge hle
    simp only [computeTrend, if_pos hmid]
    rw [if_neg (by linarith), if_neg (by linarith)]
  · intro q hq
    have : q.length / 2 = 0 := Nat.div_eq_of_lt hq
    simp [computeTrend, this]

/-- Witness for C5 on the series [0, 100]: the second-half mean 100 exceeds
1.1 times the first-half mean 0, so the trend is rising. -/
theorem c5_trend_classification_witness :
    computeTrend [(0 : ℚ), 100] = "rising" := by
  have h := c5_trend_classification [(0 : ℚ), 100] (by decide)
  exact h.1 (by norm_num [listMean])

/-- C2 counterexample: on a day with one 1500 W row and one 0 W row (both at
irradiance 1000), the query filter keeps the 0 W row, unlike the spec
power>0 filter, and (at capacity 1 kW) the mean-ratio PR is 50% with the row
and 100% without it — the power-0 row does contribute to the mean ratio. -/
theorem c2_power_zero_rows_counterexample :
    performanceQueryRows perfExampleDB "A" 0 = perfExampleDB ∧
    specPerformanceRows perfExampleDB "A" 0 = perfExampleDB.take 1 ∧
    prPercent settings 1 (performanceQueryRows perfExampleDB "A" 0) = 50 ∧
    prPercent settings 1 (specPerformanceRows perfExampleDB "A" 0) = 100 := by
  have h1 : performanceQueryRows perfExampleDB "A" 0 = perfExampleDB := by
    norm_num [performanceQueryRows, perfExampleDB, List.filter]
  have h2 : specPerformanceRows perfExampleDB "A" 0 = perfExampleDB.take 1 := by
    norm_num [specPerformanceRows, perfExampleDB, List.filter]
  refine ⟨h1, h2, ?_, ?_⟩
  · rw [h1]
    norm_num [prPercent, perfRatio, clip, listMean, perfExampleDB, settings]
  · rw [h2]
    norm_num [prPercent, perfRatio, clip, listMean, perfExampleDB, settings]

/-- C2 amended: the rows entering the ratio computation are exactly the rows
of the requested date with non-null power, non-null irradiance and
irradiance > 0; a row with power 0 passes the filter and contributes a
clipped ratio of 0 to the mean. -/
theorem c2_performance_filter_amended (db : List Measurement) (lid : String)
    (date : ℕ) :
    (∀ m : Measurement,
        m ∈ performanceQueryRows db lid date ↔
          m ∈ db ∧ m.loggerId = lid ∧ m.day = date ∧
            (∃ p, m.activePowerWatts = some p) ∧
            (∃ v, m.irradiance = some v ∧ 0 < v)) ∧
    (∀ (s : Settings) (c : ℚ) (m : Measurement),
        m.activePowerWatts = some 0 → perfRatio s c m = 0) := by
  constructor
  · intro m
    simp only [performanceQueryRows, List.mem_filter, Bool.and_eq_true, beq_iff_eq,
      Option.isSome_iff_exists]
    constructor
    · rintro ⟨hm, ⟨⟨⟨hl, hd⟩, hp⟩, hi⟩⟩
      refine ⟨hm, hl, hd, hp, ?_⟩
      cases hirr : m.irradiance with
      | none => rw [hirr] at hi; simp at hi
      | some v =>
        rw [hirr] at hi
        simp only [decide_eq_true_eq] at hi
        exact ⟨v, rfl, hi⟩
    · rintro ⟨hm, hl, hd, hp, ⟨v, hv, hvpos⟩⟩
      refine ⟨hm, ⟨⟨⟨hl, hd⟩, hp⟩, ?_⟩⟩
      rw [hv]
      simpa using hvpos
  · intro s c m hp
    simp only [perfRatio, hp, Option.getD_some, zero_div]
    exact max_eq_left (min_le_left 0 _)

/-- Witness for C2 amended at the concrete 0 W row of the example database:
its clipped ratio is 0. -/
theorem c2_performance_filter_amended_witness :
    perfRatio settings 1
      { loggerId := "A", loggerType := "goodwe", day := 0, time := 1
        activePowerWatts := some 0, energyDailyKwh := none
        irradiance := some 1000 } = 0 :=
  (c2_performance_filter_amended [] "A" 0).2 settings 1 _ rfl

/-- Helper: Python rounding is the identity on integers. -/
theorem pyRoundInt_intCast (z : ℤ) : pyRoundInt (z : ℚ) = z := by
  simp [pyRoundInt]

/-- C6: `calculate_financial_savings` reports the 2-decimal rounding of the
sum of the per-day energy maxima and of that sum times the rate; on three
days whose per-day maxima are 45.5, 52.3 and 48.7 kWh (each daily maximum
taken over several cumulative readings) at rate 0.20 it reports exactly
totalEnergyKwh 146.5 and savingsUsd 29.3. -/
theorem c6_financial_savings (db : List Measurement) (lid : String) (s e : ℕ)
    (rate : ℚ) (h : financialRows db lid s e ≠ []) :
    ((calculate_financial_savings settings db lid s e rate).totalEnergyKwh =
        some (pyRound 2 (((financialRows db lid s e).map (·.2)).sum)) ∧
      (calculate_financial_savings settings db lid s e rate).savingsUsd =
        some (pyRound 2 ((((financialRows db lid s e).map (·.2)).sum) * rate))) ∧
    dailyMaxKwh financialExampleDB "A" 1 = 91/2 ∧
    dailyMaxKwh financialExampleDB "A" 2 = 523/10 ∧
    dailyMaxKwh financialExampleDB "A" 3 = 487/10 ∧
    (calculate_financial_savings settings financialExampleDB "A" 1 3
        (1/5)).totalEnergyKwh = some (293/2) ∧
    (calculate_financial_savings settings financialExampleDB "A" 1 3
        (1/5)).savingsUsd = some (293/10) := by
  have hd1 : dailyMaxKwh financialExampleDB "A" 1 = 91/2 := by
    norm_num [dailyMaxKwh, financialExampleDB, List.filter, List.filterMap, List.max?,
      List.foldl, max_def]
  have hd2 : dailyMaxKwh financialExampleDB "A" 2 = 523/10 := by
    norm_num [dailyMaxKwh, financialExampleDB, List.filter, List.filterMap, List.max?,
      List.foldl, max_def]
  have hd3 : dailyMaxKwh financialExampleDB "A" 3 = 487/10 := by
    norm_num [dailyMaxKwh, financialExampleDB, List.filter, List.filterMap, List.max?,
      List.foldl, max_def]
  have hrows : financialRows financialExampleDB "A" 1 3 =
      [(1, dailyMaxKwh financialExampleDB "A" 1),
       (2, dailyMaxKwh financialExampleDB "A" 2),
       (3, dailyMaxKwh financialExampleDB "A" 3)] := by
    norm_num [financialRows, financialSourceRows, financialExampleDB, List.range',
      List.filter, List.any]
  have hne : financialRows financialExampleDB "A" 1 3 ≠ [] := by
    rw [hrows]; exact List.cons_ne_nil _ _
  have hgen : ∀ (db' : List Measurement) (lid' : String) (s' e' : ℕ) (rate' : ℚ),
      financialRows db' lid' s' e' ≠ [] →
      (calculate_financial_savings settings db' lid' s' e' rate').totalEnergyKwh =
          some (pyRound 2 (((financialRows db' lid' s' e').map (·.2)).sum)) ∧
        (calculate_financial_savings settings db' lid' s' e' rate').savingsUsd =
          some (pyRound 2 ((((financialRows db' lid' s' e').map (·.2)).sum) * rate')) := by
    intro db' lid' s' e' rate' h'
    rw [calculate_financial_savings, if_neg (by simpa [List.isEmpty_iff] using h')]
    exact ⟨rfl, rfl⟩
  have htot : (((financialRows financialExampleDB "A" 1 3).map (·.2)).sum) = 293/2 := by
    rw [hrows]; simp only [List.map_cons, List.map_nil, List.sum_cons, List.sum_nil]
    rw [hd1, hd2, hd3]; norm_num
  have hround1 : pyRound 2 ((293 : ℚ)/2) = 293/2 := by
    have : ((293 : ℚ)/2) * 10 ^ 2 = ((14650 : ℤ) : ℚ) := by norm_num
    rw [pyRound, this, pyRoundInt_intCast]; norm_num
  have hround2 : pyRound 2 ((293 : ℚ)/2 * (1/5)) = 293/10 := by
    have : ((293 : ℚ)/2 * (1/5)) * 10 ^ 2 = ((2930 : ℤ) : ℚ) := by norm_num
    rw [pyRound, this, pyRoundInt_intCast]; norm_num
  refine ⟨hgen db lid s e rate h, hd1, hd2, hd3, ?_, ?_⟩
  · rw [(hgen financialExampleDB "A" 1 3 (1/5) hne).1, htot, hround1]
  · rw [(hgen financialExampleDB "A" 1 3 (1/5) hne).2, htot, hround2]

/-- Witness for C6 at the concrete three-day example database. -/
theorem c6_financial_savings_witness :
    (calculate_financial_savings settings financialExampleDB "A" 1 3
        (1/5)).totalEnergyKwh = some (293/2) ∧
    (calculate_financial_savings settings financialExampleDB "A" 1 3
        (1/5)).savingsUsd = some (293/10) := by
  have h := c6_financial_savings financialExampleDB "A" 1 3 (1/5)
    (by
      have hr : financialRows financialExampleDB "A" 1 3 =
          [(1, dailyMaxKwh financialExampleDB "A" 1),
           (2, dailyMaxKwh financialExampleDB "A" 2),
           (3, dailyMaxKwh financialExampleDB "A" 3)] := by
        norm_num [financialRows, financialSourceRows, financialExampleDB, List.range',
          List.filter, List.any]
      rw [hr]; exact List.cons_ne_nil _ _)
  exact ⟨h.2.2.2.2.1, h.2.2.2.2.2⟩

/-- C3 counterexample: device A has data on day 10, yet requesting the
financial window 20-25 (or a forecast anchored at day 40) returns exactly
the same bare no-data report as for an empty database - no smart-recovery
range query informs the caller of the available range. -/
theorem c3_no_smart_recovery_counterexample :
    minDataDay outOfWindowDB "A" = some 10 ∧
    maxDataDay outOfWindowDB "A" = some 10 ∧
    calculate_financial_savings settings outOfWindowDB "A" 20 25 (1/5) =
      financialNoDataReport ∧
    calculate_financial_savings settings [] "A" 20 25 (1/5) =
      financialNoDataReport ∧
    forecast_production settings outOfWindowDB "A" 40 =
      forecastNoDataReport settings ∧
    forecast_production settings [] "A" 40 = forecastNoDataReport settings := by
  refine ⟨by decide, by decide, ?_, ?_, ?_, ?_⟩
  · rw [calculate_financial_savings, if_pos (by decide)]
  · rw [calculate_financial_savings, if_pos (by decide)]
  · rw [forecast_production, if_pos (by decide)]
  · rw [forecast_production, if_pos (by decide)]

/-- C3 amended: on an empty main result, `get_power_curve` and
`compare_loggers` (like `analyze_inverter_health` and
`calculate_performance_ratio`) populate `availableRange` via the
smart-recovery range query, but `calculate_financial_savings` and
`forecast_production` return a fixed no-data message that is independent of
the rest of the database, so their callers never receive the available data
range. -/
theorem c3_smart_recovery_amended (db : List Measurement) (lid : String) (date : ℕ)
    (ids : List String) (dOpt : Option ℕ) (startD endD nowDay : ℕ) (rate : ℚ)
    (hpc : powerCurveRows db lid date = [])
    (h2 : 2 ≤ ids.length) (h5 : ids.length ≤ 5)
    (hcr : comparisonRows db ids dOpt = [])
    (hfin : financialRows db lid startD endD = [])
    (hfc : (forecastRows db lid nowDay).length < settings.forecast_min_history_days) :
    (get_power_curve db lid date).availableRange.isSome = true ∧
    (compare_loggers db ids dOpt).availableRange.isSome = true ∧
    calculate_financial_savings settings db lid startD endD rate =
      financialNoDataReport ∧
    forecast_production settings db lid nowDay = forecastNoDataReport settings := by
  refine ⟨?_, ?_, ?_, ?_⟩
  · rw [get_power_curve]
    rw [show (powerCurveRows db lid date).isEmpty = true by simp [hpc]]
    simp only [if_true]
    cases minDataDay db lid <;> cases maxDataDay db lid <;> simp
  · have hguard : (ids.length < 2 || 5 < ids.length) = false := by
      simp only [Bool.or_eq_false_iff, decide_eq_false_iff_not, not_lt]
      exact ⟨h2, h5⟩
    simp only [compare_loggers, hguard, Bool.false_eq_true, if_false, hcr,
      List.isEmpty_nil, if_true]
    cases (comparisonKeyDays db ids).min? <;>
      cases (comparisonKeyDays db ids).max? <;> simp
  · rw [calculate_financial_savings, if_pos (by simp [hfin])]
  · rw [forecast_production, if_pos hfc]

/-- Witness for C3 amended: device A has data on day 10 only; requesting the
power curve for day 20, a comparison of A and B on day 20, the financial
window 20-25 and a forecast at day 40. -/
theorem c3_smart_recovery_amended_witness :
    (get_power_curve outOfWindowDB "A" 20).availableRange.isSome = true ∧
    (compare_loggers outOfWindowDB ["A", "B"] (some 20)).availableRange.isSome = true ∧
    calculate_financial_savings settings outOfWindowDB "A" 20 25 (1/5) =
      financialNoDataReport ∧
    forecast_production settings outOfWindowDB "A" 40 =
      forecastNoDataReport settings := by
  have h := c3_smart_recovery_amended outOfWindowDB "A" 20 ["A", "B"] (some 20)
    20 25 40 (1/5) (by decide) (by decide) (by decide) (by decide) (by decide)
    (by decide)
  exact h

/-- Helper: the minimum of a list of naturals is at most its maximum. -/
theorem nat_min?_le_max? {l : List ℕ} {a b : ℕ} (ha : l.min? = some a)
    (hb : l.max? = some b) : a ≤ b := by
  rcases List.min?_eq_some_iff'.1 ha with ⟨_, hlb⟩
  rcases List.max?_eq_some_iff'.1 hb with ⟨hmem, _⟩
  exact hlb b hmem

/-- Helper: every row of a device lies between the recovered min and max
data days. -/
theorem day_mem_range {db : List Measurement} {lid : String} {mn mx : ℕ}
    (hmn : minDataDay db lid = some mn) (hmx : maxDataDay db lid = some mx)
    {m : Measurement} (hm : m ∈ rowsFor db lid) : mn ≤ m.day ∧ m.day ≤ mx := by
  have hmem : m.day ∈ (rowsFor db lid).map (·.day) := List.mem_map_of_mem _ hm
  rcases List.min?_eq_some_iff'.1 hmn with ⟨_, hlb⟩
  rcases List.max?_eq_some_iff'.1 hmx with ⟨_, hub⟩
  exact ⟨hlb _ hmem, hub _ hmem⟩

/-- Helper: a device with no rows has an empty day window on every date. -/
theorem powerCurveRows_eq_nil (db : List Measurement) (lid : String) (date : ℕ)
    (h : rowsFor db lid = []) : powerCurveRows db lid date = [] := by
  rw [powerCurveRows, List.filter_eq_nil_iff]
  intro m hm
  have : ¬ (m.loggerId == lid) = true := by
    intro hl
    have : m ∈ rowsFor db lid := List.mem_filter.2 ⟨hm, hl⟩
    simp [h] at this
  simp only [Bool.and_eq_true, not_and]
  intro hl
  exact absurd hl this

/-- Helper: a date outside the recovered range has an empty day window. -/
theorem powerCurveRows_eq_nil_of_outside {db : List Measurement} {lid : String}
    {date mn mx : ℕ} (hmn : minDataDay db lid = some mn)
    (hmx : maxDataDay db lid = some mx) (hout : date < mn ∨ mx < date) :
    powerCurveRows db lid date = [] := by
  rw [powerCurveRows, List.filter_eq_nil_iff]
  intro m hm
  simp only [Bool.and_eq_true, beq_iff_eq, not_and]
  intro hl hd
  have hmem : m ∈ rowsFor db lid := List.mem_filter.2 ⟨hm, by simp [hl]⟩
  have hb := day_mem_range hmn hmx hmem
  rcases hout with hout | hout <;> omega

/-- C4: for `get_power_curve` and `compare_loggers`: `no_data` implies a
null-null availableRange; `no_data_in_window` implies both bounds present,
start at most end, and equal to the true min/max data dates of the requested
key; a date outside the known range of a device yields `no_data_in_window` with
the true bounds, and an unknown device yields `no_data`. -/
theorem c4_status_range_invariants (db : List Measurement) (lid : String)
    (date : ℕ) (ids : List String) (dOpt : Option ℕ) (nowDay days : ℕ) :
    ((get_power_curve db lid date).status = some DataStatus.no_data →
      (get_power_curve db lid date).availableRange =
        some { start := none, end_ := none }) ∧
    ((get_power_curve db lid date).status = some DataStatus.no_data_in_window →
      ∃ mn mx, minDataDay db lid = some mn ∧ maxDataDay db lid = some mx ∧
        mn ≤ mx ∧
        (get_power_curve db lid date).availableRange =
          some { start := some mn, end_ := some mx }) ∧
    (rowsFor db lid = [] →
      (get_power_curve db lid date).status = some DataStatus.no_data ∧
      (get_power_curve db lid date).availableRange =
        some { start := none, end_ := none }) ∧
    (∀ mn mx, minDataDay db lid = some mn → maxDataDay db lid = some mx →
      (date < mn ∨ mx < date) →
      (get_power_curve db lid date).status = some DataStatus.no_data_in_window ∧
      (get_power_curve db lid date).availableRange =
        some { start := some mn, end_ := some mx }) ∧
    (2 ≤ ids.length → ids.length ≤ 5 →
      ((compare_loggers db ids dOpt).status = some DataStatus.no_data →
        (compare_loggers db ids dOpt).availableRange =
          some { start := none, end_ := none }) ∧
      ((compare_loggers db ids dOpt).status = some DataStatus.no_data_in_window →
        ∃ mn mx, (comparisonKeyDays db ids).min? = some mn ∧
          (comparisonKeyDays db ids).max? = some mx ∧ mn ≤ mx ∧
          (compare_loggers db ids dOpt).availableRange =
            some { start := some mn, end_ := some mx })) ∧
    ((analyze_inverter_health_status db lid nowDay days).status =
        some DataStatus.no_data →
      (analyze_inverter_health_status db lid nowDay days).availableRange =
        some { start := none, end_ := none }) ∧
    ((analyze_inverter_health_status db lid nowDay days).status =
        some DataStatus.no_data_in_window →
      ∃ mn mx, minDataDay db lid = some mn ∧ maxDataDay db lid = some mx ∧
        mn ≤ mx ∧
        (analyze_inverter_health_status db lid nowDay days).availableRange =
          some { start := some mn, end_ := some mx }) ∧
    ((calculate_performance_ratio_status db lid date).status =
        some DataStatus.no_data →
      (calculate_performance_ratio_status db lid date).availableRange =
        some { start := none, end_ := none }) ∧
    ((calculate_performance_ratio_status db lid date).status =
        some DataStatus.no_data_in_window →
      ∃ mn mx, minDataDay db lid = some mn ∧ maxDataDay db lid = some mx ∧
        mn ≤ mx ∧
        (calculate_performance_ratio_status db lid date).availableRange =
          some { start := some mn, end_ := some mx }) := by
  refine ⟨?_, ?_, ?_, ?_, ?_, ?_, ?_, ?_, ?_⟩
  · intro h
    by_cases hdf : (powerCurveRows db lid date).isEmpty
    · rcases hmn : minDataDay db lid with _ | mn
      · simp [get_power_curve, hdf, hmn]
      · rcases hmx : maxDataDay db lid with _ | mx
        · have hnil : (rowsFor db lid).map (fun m => m.day) = [] :=
            List.max?_eq_none_iff.1 hmx
          rw [minDataDay, hnil] at hmn
          simp at hmn
        · simp [get_power_curve, hdf, hmn, hmx] at h
    · simp [get_power_curve, hdf] at h
  · intro h
    by_cases hdf : (powerCurveRows db lid date).isEmpty
    · rcases hmn : minDataDay db lid with _ | mn
      · simp [get_power_curve, hdf, hmn] at h
      · rcases hmx : maxDataDay db lid with _ | mx
        · have hnil : (rowsFor db lid).map (fun m => m.day) = [] :=
            List.max?_eq_none_iff.1 hmx
          rw [minDataDay, hnil] at hmn
          simp at hmn
        · exact ⟨mn, mx, rfl, rfl, nat_min?_le_max? hmn hmx,
            by simp [get_power_curve, hdf, hmn, hmx]⟩
    · simp [get_power_curve, hdf] at h
  · intro h
    have hpc : powerCurveRows db lid date = [] := powerCurveRows_eq_nil db lid date h
    have hmn : minDataDay db lid = none := by simp [minDataDay, h]
    constructor <;> simp [get_power_curve, hpc, hmn]
  · intro mn mx hmn hmx hout
    have hpc : powerCurveRows db lid date = [] :=
      powerCurveRows_eq_nil_of_outside hmn hmx hout
    constructor <;> simp [get_power_curve, hpc, hmn, hmx]
  · intro h2 h5
    have hguard : (ids.length < 2 || 5 < ids.length) = false := by
      simp only [Bool.or_eq_false_iff, decide_eq_false_iff_not, not_lt]
      exact ⟨h2, h5⟩
    constructor
    · intro h
      by_cases hdf : (comparisonRows db ids dOpt).isEmpty
      · rcases hmn : (comparisonKeyDays db ids).min? with _ | mn
        · simp [compare_loggers, hguard, hdf, hmn]
        · rcases hmx : (comparisonKeyDays db ids).max? with _ | mx
          · have hnil : comparisonKeyDays db ids = [] := List.max?_eq_none_iff.1 hmx
            rw [hnil] at hmn
            simp at hmn
          · simp [compare_loggers, hguard, hdf, hmn, hmx] at h
      · simp [compare_loggers, hguard, hdf] at h
    · intro h
      by_cases hdf : (comparisonRows db ids dOpt).isEmpty
      · rcases hmn : (comparisonKeyDays db ids).min? with _ | mn
        · simp [compare_loggers, hguard, hdf, hmn] at h
        · rcases hmx : (comparisonKeyDays db ids).max? with _ | mx
          · have hnil : comparisonKeyDays db ids = [] := List.max?_eq_none_iff.1 hmx
            rw [hnil] at hmn
            simp at hmn
          · exact ⟨mn, mx, rfl, rfl, nat_min?_le_max? hmn hmx,
              by simp [compare_loggers, hguard, hdf, hmn, hmx]⟩
      · simp [compare_loggers, hguard, hdf] at h
  · intro h
    by_cases hdf : (healthWindowRows db lid nowDay days).isEmpty
    · rcases hmn : minDataDay db lid with _ | mn
      · simp [analyze_inverter_health_status, hdf, hmn]
      · rcases hmx : maxDataDay db lid with _ | mx
        · have hnil : (rowsFor db lid).map (fun m => m.day) = [] :=
            List.max?_eq_none_iff.1 hmx
          rw [minDataDay, hnil] at hmn
          simp at hmn
        · simp [analyze_inverter_health_status, hdf, hmn, hmx] at h
    · simp [analyze_inverter_health_status, hdf] at h
  · intro h
    by_cases hdf : (healthWindowRows db lid nowDay days).isEmpty
    · rcases hmn : minDataDay db lid with _ | mn
      · simp [analyze_inverter_health_status, hdf, hmn] at h
      · rcases hmx : maxDataDay db lid with _ | mx
        · have hnil : (rowsFor db lid).map (fun m => m.day) = [] :=
            List.max?_eq_none_iff.1 hmx
          rw [minDataDay, hnil] at hmn
          simp at hmn
        · exact ⟨mn, mx, rfl, rfl, nat_min?_le_max? hmn hmx,
            by simp [analyze_inverter_health_status, hdf, hmn, hmx]⟩
    · simp [analyze_inverter_health_status, hdf] at h
  · intro h
    by_cases hdf : (performanceQueryRows db lid date).isEmpty
    · rcases hmn : minDataDay db lid with _ | mn
      · simp [calculate_performance_ratio_status, hdf, hmn]
      · rcases hmx : maxDataDay db lid with _ | mx
        · have hnil : (rowsFor db lid).map (fun m => m.day) = [] :=
            List.max?_eq_none_iff.1 hmx
          rw [minDataDay, hnil] at hmn
          simp at hmn
        · simp [calculate_performance_ratio_status, hdf, hmn, hmx] at h
    · simp [calculate_performance_ratio_status, hdf] at h
  · intro h
    by_cases hdf : (performanceQueryRows db lid date).isEmpty
    · rcases hmn : minDataDay db lid with _ | mn
      · simp [calculate_performance_ratio_status, hdf, hmn] at h
      · rcases hmx : maxDataDay db lid with _ | mx
        · have hnil : (rowsFor db lid).map (fun m => m.day) = [] :=
            List.max?_eq_none_iff.1 hmx
          rw [minDataDay, hnil] at hmn
          simp at hmn
        · exact ⟨mn, mx, rfl, rfl, nat_min?_le_max? hmn hmx,
            by simp [calculate_performance_ratio_status, hdf, hmn, hmx]⟩
    · simp [calculate_performance_ratio_status, hdf] at h

/-- Witness for C4: device A has data on days 5-7; requesting day 9 yields
`no_data_in_window` with the true range, and the unknown device B yields
`no_data` with a null range. -/
theorem c4_status_range_invariants_witness :
    (get_power_curve rangeExampleDB "A" 9).status =
      some DataStatus.no_data_in_window ∧
    (get_power_curve rangeExampleDB "A" 9).availableRange =
      some { start := some 5, end_ := some 7 } ∧
    (get_power_curve rangeExampleDB "B" 9).status = some DataStatus.no_data ∧
    (get_power_curve rangeExampleDB "B" 9).availableRange =
      some { start := none, end_ := none } := by
  have hA := (c4_status_range_invariants rangeExampleDB "A" 9 ["A", "B"] none
    9 7).2.2.2.1 5 7 (by decide) (by decide) (by decide)
  have hB := (c4_status_range_invariants rangeExampleDB "B" 9 ["A", "B"] none
    9 7).2.2.1 (by decide)
  exact ⟨hA.1, hA.2, hB.1, hB.2⟩

/-- Helper: the mean of a non-empty list is at most any upper bound of its
elements. -/
theorem listMean_le {xs : List ℚ} {b : ℚ} (hne : xs ≠ []) (h : ∀ x ∈ xs, x ≤ b) :
    listMean xs ≤ b := by
  have hlen : 0 < (xs.length : ℚ) := by
    exact_mod_cast List.length_pos.2 hne
  rw [listMean, div_le_iff₀ hlen]
  have := List.sum_le_card_nsmul xs b h
  rw [nsmul_eq_mul] at this
  linarith [this]

/-- Helper: the mean of a non-empty list is at least any lower bound of its
elements. -/
theorem le_listMean {xs : List ℚ} {b : ℚ} (hne : xs ≠ []) (h : ∀ x ∈ xs, b ≤ x) :
    b ≤ listMean xs := by
  have hlen : 0 < (xs.length : ℚ) := by
    exact_mod_cast List.length_pos.2 hne
  rw [listMean, le_div_iff₀ hlen]
  have := List.card_nsmul_le_sum xs b h
  rw [nsmul_eq_mul] at this
  linarith [this]

/-- Helper: the mean of a non-empty list of positive values is positive. -/
theorem listMean_pos {xs : List ℚ} (hne : xs ≠ []) (h : ∀ x ∈ xs, 0 < x) :
    0 < listMean xs := by
  have hlen : 0 < (xs.length : ℚ) := by
    exact_mod_cast List.length_pos.2 hne
  exact div_pos (List.sum_pos xs h hne) hlen

/-- Helper: one best/worst step either keeps the current best or installs
the new pair. -/
theorem stepBestWorst_best (acc : BestWorst) (q : String × ℚ) :
    (stepBestWorst acc q).best = acc.best ∨ (stepBestWorst acc q).best = some q := by
  unfold stepBestWorst
  rcases hb : acc.best with _ | p <;> rcases hw : acc.worst with _ | r <;>
    simp_all <;> split_ifs <;> simp_all <;> split_ifs <;> simp_all

/-- Helper: one best/worst step either keeps the current worst or installs
the new pair. -/
theorem stepBestWorst_worst (acc : BestWorst) (q : String × ℚ) :
    (stepBestWorst acc q).worst = acc.worst ∨ (stepBestWorst acc q).worst = some q := by
  unfold stepBestWorst
  rcases hb : acc.best with _ | p <;> rcases hw : acc.worst with _ | r <;>
    simp_all <;> split_ifs <;> simp_all <;> split_ifs <;> simp_all

/-- Helper: after one best/worst step the best is always set. -/
theorem stepBestWorst_best_isSome (acc : BestWorst) (q : String × ℚ) :
    (stepBestWorst acc q).best.isSome = true := by
  unfold stepBestWorst
  rcases hb : acc.best with _ | p <;> rcases hw : acc.worst with _ | r <;>
    simp_all <;> split_ifs <;> simp_all <;> split_ifs <;> simp_all

/-- Helper: after one best/worst step the worst is always set. -/
theorem stepBestWorst_worst_isSome (acc : BestWorst) (q : String × ℚ) :
    (stepBestWorst acc q).worst.isSome = true := by
  unfold stepBestWorst
  rcases hb : acc.best with _ | p <;> rcases hw : acc.worst with _ | r <;>
    simp_all <;> split_ifs <;> simp_all <;> split_ifs <;> simp_all

/-- Helper: a best pair of the fold comes from the accumulator or the list. -/
theorem foldl_bestWorst_best_mem :
    ∀ (stats : List (String × ℚ)) (acc : BestWorst) (p : String × ℚ),
      (stats.foldl stepBestWorst acc).best = some p →
      acc.best = some p ∨ p ∈ stats := by
  intro stats
  induction stats with
  | nil => exact fun acc p h => Or.inl h
  | cons q t ih =>
    intro acc p h
    rcases ih (stepBestWorst acc q) p h with h' | h'
    · rcases stepBestWorst_best acc q with he | he
      · exact Or.inl (he ▸ h')
      · rw [he] at h'
        exact Or.inr (by simp [Option.some_inj.1 h'.symm] )
    · exact Or.inr (List.mem_cons_of_mem _ h')

/-- Helper: a worst pair of the fold comes from the accumulator or the list. -/
theorem foldl_bestWorst_worst_mem :
    ∀ (stats : List (String × ℚ)) (acc : BestWorst) (p : String × ℚ),
      (stats.foldl stepBestWorst acc).worst = some p →
      acc.worst = some p ∨ p ∈ stats := by
  intro stats
  induction stats with
  | nil => exact fun acc p h => Or.inl h
  | cons q t ih =>
    intro acc p h
    rcases ih (stepBestWorst acc q) p h with h' | h'
    · rcases stepBestWorst_worst acc q with he | he
      · exact Or.inl (he ▸ h')
      · rw [he] at h'
        exact Or.inr (by simp [Option.some_inj.1 h'.symm] )
    · exact Or.inr (List.mem_cons_of_mem _ h')

/-- Helper: the best pair of a non-trivial fold belongs to the stats list. -/
theorem bestWorst_best_mem {stats : List (String × ℚ)} {p : String × ℚ}
    (h : (bestWorst stats).best = some p) : p ∈ stats := by
  rcases foldl_bestWorst_best_mem stats { best := none, worst := none } p h with h' | h'
  · simp at h'
  · exact h'

/-- Helper: the worst pair of a non-trivial fold belongs to the stats list. -/
theorem bestWorst_worst_mem {stats : List (String × ℚ)} {p : String × ℚ}
    (h : (bestWorst stats).worst = some p) : p ∈ stats := by
  rcases foldl_bestWorst_worst_mem stats { best := none, worst := none } p h with h' | h'
  · simp at h'
  · exact h'

/-- Helper: the fold keeps best set once it is set. -/
theorem foldl_bestWorst_best_isSome :
    ∀ (stats : List (String × ℚ)) (acc : BestWorst),
      acc.best.isSome = true → (stats.foldl stepBestWorst acc).best.isSome = true := by
  intro stats
  induction stats with
  | nil => exact fun acc h => h
  | cons q t ih =>
    intro acc _
    exact ih (stepBestWorst acc q) (stepBestWorst_best_isSome acc q)

/-- Helper: the fold keeps worst set once it is set. -/
theorem foldl_bestWorst_worst_isSome :
    ∀ (stats : List (String × ℚ)) (acc : BestWorst),
      acc.worst.isSome = true → (stats.foldl stepBestWorst acc).worst.isSome = true := by
  intro stats
  induction stats with
  | nil => exact fun acc h => h
  | cons q t ih =>
    intro acc _
    exact ih (stepBestWorst acc q) (stepBestWorst_worst_isSome acc q)

/-- Helper: on a non-empty stats list both extrema are set. -/
theorem bestWorst_isSome {stats : List (String × ℚ)} (h : stats ≠ []) :
    (bestWorst stats).best.isSome = true ∧ (bestWorst stats).worst.isSome = true := by
  cases stats with
  | nil => exact absurd rfl h
  | cons q t =>
    constructor
    · exact foldl_bestWorst_best_isSome t _ (stepBestWorst_best_isSome _ q)
    · exact foldl_bestWorst_worst_isSome t _ (stepBestWorst_worst_isSome _ q)

/-- Helper: the comparison alert is present exactly when the spread exceeds
40 percent. -/
theorem comparison_alert_iff (stats : List (String × ℚ)) :
    (build_comparison_context stats).alert.isSome = true ↔
      40 < spreadPercent (bestWorst stats) := by
  by_cases h40 : 40 < spreadPercent (bestWorst stats)
  · rcases hw : (bestWorst stats).worst with _ | ⟨w, wv⟩ <;>
      simp [build_comparison_context, h40, hw]
  · simp [build_comparison_context, h40]

/-- Helper: a spread of at most 15 percent produces no underperformer
insight. -/
theorem no_underperformer_of_spread_le (stats : List (String × ℚ))
    (h15 : spreadPercent (bestWorst stats) ≤ 15) :
    hasUnderperformerInsight (build_comparison_context stats) = false := by
  have h15' : ¬ (15 : ℚ) < spreadPercent (bestWorst stats) := not_lt.2 h15
  rcases hb : (bestWorst stats).best with _ | ⟨b, bv⟩ <;>
    rcases hw : (bestWorst stats).worst with _ | ⟨w, wv⟩ <;>
      simp [hasUnderperformerInsight, build_comparison_context, hb, hw, h15'] <;>
        split_ifs <;> simp

/-- C7: the spread is (best - worst) / best x 100 over per-device averages;
the alert is attached exactly when the spread exceeds 40; and for two device
series whose values are all positive and pairwise within 10 percent of each
other, the context carries no underperformer insight and no alert. -/
theorem c7_comparison_spread (stats : List (String × ℚ)) (l1 l2 : String)
    (s1 s2 : List ℚ) (h1ne : s1 ≠ []) (h2ne : s2 ≠ []) :
    ∀ _ : (∀ v ∈ s1 ++ s2, ∀ w ∈ s1 ++ s2, 0 < v ∧ (9/10) * w ≤ v),
    (∀ b bv w wv, (bestWorst stats).best = some (b, bv) →
        (bestWorst stats).worst = some (w, wv) → 0 < bv →
        spreadPercent (bestWorst stats) = ((bv - wv) / bv) * 100) ∧
    ((build_comparison_context stats).alert.isSome = true ↔
        40 < spreadPercent (bestWorst stats)) ∧
    hasUnderperformerInsight
      (build_comparison_context [(l1, listMean s1), (l2, listMean s2)]) = false ∧
    (build_comparison_context [(l1, listMean s1), (l2, listMean s2)]).alert =
      none := by
  intro hclose
  have hpos1 : ∀ x ∈ s1, 0 < x := fun x hx =>
    (hclose x (List.mem_append_left _ hx) x (List.mem_append_left _ hx)).1
  have hpos2 : ∀ x ∈ s2, 0 < x := fun x hx =>
    (hclose x (List.mem_append_right _ hx) x (List.mem_append_right _ hx)).1
  have hm1pos : 0 < listMean s1 := listMean_pos h1ne hpos1
  have hm2pos : 0 < listMean s2 := listMean_pos h2ne hpos2
  have h21 : (9/10) * listMean s2 ≤ listMean s1 := by
    apply le_listMean h1ne
    intro v hv
    have hub : ∀ w ∈ s2, w ≤ (10/9) * v := by
      intro w hw
      have h := (hclose v (List.mem_append_left _ hv) w
        (List.mem_append_right _ hw)).2
      linarith
    have := listMean_le h2ne hub
    linarith
  have h12 : (9/10) * listMean s1 ≤ listMean s2 := by
    apply le_listMean h2ne
    intro v hv
    have hub : ∀ w ∈ s1, w ≤ (10/9) * v := by
      intro w hw
      have h := (hclose v (List.mem_append_right _ hv) w
        (List.mem_append_left _ hw)).2
      linarith
    have := listMean_le h1ne hub
    linarith
  have hsple : spreadPercent (bestWorst [(l1, listMean s1), (l2, listMean s2)]) ≤ 10 := by
    by_cases hlt : listMean s1 < listMean s2
    · have hbw : bestWorst [(l1, listMean s1), (l2, listMean s2)] =
          { best := some (l2, listMean s2), worst := some (l1, listMean s1) } := by
        simp [bestWorst, stepBestWorst, hlt, lt_asymm hlt]
      rw [hbw]
      simp only [spreadPercent, if_pos hm2pos]
      rw [div_mul_eq_mul_div, div_le_iff₀ hm2pos]
      linarith
    · by_cases hlt2 : listMean s2 < listMean s1
      · have hbw : bestWorst [(l1, listMean s1), (l2, listMean s2)] =
            { best := some (l1, listMean s1), worst := some (l2, listMean s2) } := by
          simp [bestWorst, stepBestWorst, hlt, hlt2]
        rw [hbw]
        simp only [spreadPercent, if_pos hm1pos]
        rw [div_mul_eq_mul_div, div_le_iff₀ hm1pos]
        linarith
      · have hbw : bestWorst [(l1, listMean s1), (l2, listMean s2)] =
            { best := some (l1, listMean s1), worst := some (l1, listMean s1) } := by
          simp [bestWorst, stepBestWorst, hlt, hlt2]
        rw [hbw]
        simp [spreadPercent, if_pos hm1pos]
  refine ⟨?_, comparison_alert_iff stats, ?_, ?_⟩
  · intro b bv w wv hb hw hpos
    simp [spreadPercent, hb, hw, hpos]
  · exact no_underperformer_of_spread_le _ (hsple.trans (by norm_num))
  · have := (comparison_alert_iff [(l1, listMean s1), (l2, listMean s2)]).not
    simp only [Option.isSome_iff_exists, not_exists, not_lt] at this
    have hno : ¬ (build_comparison_context
        [(l1, listMean s1), (l2, listMean s2)]).alert.isSome = true := by
      rw [comparison_alert_iff]
      exact not_lt.2 (hsple.trans (by norm_num))
    exact Option.not_isSome_iff_eq_none.1 (by simpa using hno)

/-- Witness for C7 at two one-point series 100 and 95 (all values within 10
percent): no underperformer insight and no alert. -/
theorem c7_comparison_spread_witness :
    hasUnderperformerInsight
      (build_comparison_context [("a", listMean [100]), ("b", listMean [95])]) =
      false ∧
    (build_comparison_context [("a", listMean [100]), ("b", listMean [95])]).alert =
      none := by
  have h := c7_comparison_spread [] "a" "b" [100] [95]
    (by simp) (by simp)
    (by
      intro v hv w hw
      simp only [List.cons_append, List.nil_append, List.mem_cons,
        List.not_mem_nil, or_false] at hv hw
      rcases hv with rfl | rfl <;> rcases hw with rfl | rfl <;> norm_num)
  exact ⟨h.2.2.1, h.2.2.2⟩

/-- C10: when the best per-device average is not strictly positive the
guarded spread stays 0 (the division is never reached), so with at least two
devices (with non-empty ids) the framing is consistent, there is no
underperformer insight and no alert. -/
theorem c10_zero_best_consistent (stats : List (String × ℚ)) (b : String)
    (bv : ℚ) (hids : ∀ p ∈ stats, p.1 ≠ "") (hlen : 2 ≤ stats.length)
    (hb : (bestWorst stats).best = some (b, bv)) (hbv : bv ≤ 0) :
    spreadPercent (bestWorst stats) = 0 ∧
    (build_comparison_context stats).framing = Framing.consistent ∧
    hasUnderperformerInsight (build_comparison_context stats) = false ∧
    (build_comparison_context stats).alert = none := by
  have hne : stats ≠ [] := by
    intro he
    rw [he] at hlen
    simp at hlen
  obtain ⟨w, wv⟩ := Option.isSome_iff_exists.1 (bestWorst_isSome hne).2
  have hw : (bestWorst stats).worst = some w := by exact wv
  rcases w with ⟨w, wv⟩
  have hsp : spreadPercent (bestWorst stats) = 0 := by
    simp [spreadPercent, hb, hw, not_lt.2 hbv]
  have hbne : b ≠ "" := hids _ (bestWorst_best_mem hb)
  have hwne : w ≠ "" := hids _ (bestWorst_worst_mem hw)
  refine ⟨hsp, ?_, ?_, ?_⟩
  · simp [build_comparison_context, truthyLogger, hb, hw, hbne, hwne, hlen, hsp]
  · exact no_underperformer_of_spread_le stats (by rw [hsp]; norm_num)
  · have hno : ¬ (build_comparison_context stats).alert.isSome = true := by
      rw [comparison_alert_iff, hsp]
      norm_num
    exact Option.not_isSome_iff_eq_none.1 (by simpa using hno)

/-- Witness for C10 at two devices that both average 0. -/
theorem c10_zero_best_consistent_witness :
    spreadPercent (bestWorst [("a", 0), ("b", 0)]) = 0 ∧
    (build_comparison_context [("a", (0 : ℚ)), ("b", 0)]).framing =
      Framing.consistent ∧
    hasUnderperformerInsight (build_comparison_context [("a", (0 : ℚ)), ("b", 0)]) =
      false ∧
    (build_comparison_context [("a", (0 : ℚ)), ("b", 0)]).alert = none := by
  have h := c10_zero_best_consistent [("a", 0), ("b", 0)] "a" 0
    (by intro p hp; simp only [List.mem_cons, List.not_mem_nil, or_false] at hp;
        rcases hp with rfl | rfl <;> simp)
    (by simp)
    (by simp [bestWorst, stepBestWorst])
    le_rfl
  exact h

/-- Helper: the historical date warning is never the empty string. -/
theorem dateWarning_ne_empty (info : DateMismatchInfo) (h : info.isHistorical = true) :
    dateWarning (some info) ≠ "" := by
  intro he
  rw [dateWarning] at he
  rw [if_pos h] at he
  have hlen := congrArg String.length he
  have h24 : ("Note: This data is from ").length = 24 := rfl
  have h0 : ("" : String).length = 0 := rfl
  simp only [String.length_append] at hlen
  omega

/-- C8: the fleet context alert is present exactly when the anchor date is
earlier than the wall-clock date or fleet health is Critical; under a date
mismatch the mismatch note is the alert text (even when health is also
Critical) and the non-empty mismatch warning is prefixed to the summary. -/
theorem c8_fleet_alert_priority (totalLoggers activeLoggers : ℕ)
    (percentOnline totalPower totalEnergy : ℚ) (currentDay anchorDay : ℕ) :
    ((build_fleet_context totalLoggers activeLoggers percentOnline
        (fleetHealthOf percentOnline) totalPower totalEnergy
        (mkDateMismatch currentDay anchorDay)).alert.isSome = true ↔
      (anchorDay < currentDay ∨ fleetHealthOf percentOnline = "Critical")) ∧
    (anchorDay < currentDay →
      ∃ info, mkDateMismatch currentDay anchorDay = some info ∧
        (build_fleet_context totalLoggers activeLoggers percentOnline
          (fleetHealthOf percentOnline) totalPower totalEnergy
          (mkDateMismatch currentDay anchorDay)).alert =
            some (fleetMismatchAlert info) ∧
        dateWarning (mkDateMismatch currentDay anchorDay) ≠ "") ∧
    ((build_fleet_context totalLoggers activeLoggers percentOnline
        (fleetHealthOf percentOnline) totalPower totalEnergy
        (mkDateMismatch currentDay anchorDay)).summary =
      dateWarning (mkDateMismatch currentDay anchorDay) ++
        fleetBaseSummary totalLoggers activeLoggers totalPower totalEnergy
          (fleetHealthOf percentOnline)) := by
  by_cases hm : anchorDay < currentDay
  · have hdm : mkDateMismatch currentDay anchorDay =
        some { requestedDate := currentDay, actualDataDate := anchorDay
               daysDifference := (currentDay : ℤ) - (anchorDay : ℤ)
               isHistorical := true } := by
      rw [mkDateMismatch, if_pos (by omega)]
    refine ⟨?_, ?_, rfl⟩
    · rw [hdm]
      simp [build_fleet_context, hm]
    · intro _
      refine ⟨_, hdm, ?_, ?_⟩
      · rw [hdm]
        simp [build_fleet_context]
      · rw [hdm]
        exact dateWarning_ne_empty _ rfl
  · have hdm : mkDateMismatch currentDay anchorDay = none := by
      rw [mkDateMismatch, if_neg (by omega)]
    refine ⟨?_, fun h => absurd h hm, rfl⟩
    rw [hdm]
    by_cases hcrit : fleetHealthOf percentOnline = "Critical"
    · simp [build_fleet_context, dateWarning, hcrit, hm]
    · simp [build_fleet_context, dateWarning, hcrit, hm]

/-- Witness for C8: anchor day 10, wall-clock day 12, 100 percent online
(Healthy): the alert is the date-mismatch note. -/
theorem c8_fleet_alert_priority_witness :
    (build_fleet_context 2 2 100 (fleetHealthOf 100) 5000 40
        (mkDateMismatch 12 10)).alert.isSome = true := by
  have h := c8_fleet_alert_priority 2 2 100 5000 40 12 10
  exact h.1.2 (Or.inl (by norm_num))

/-- Helper: a missing error code leaves the aggregation unchanged. -/
theorem updateCounts_codes_none (acc : List ErrorStat) (row : ScanRow)
    (h : row.errorCode = none) : updateCounts acc row = acc := by
  rw [updateCounts, h]

/-- Helper: the membership test of the aggregation loop, on the code list. -/
theorem updateCounts_any_iff (acc : List ErrorStat) (c : String) :
    (acc.any (·.code == c) = true) ↔ c ∈ acc.map (·.code) := by
  simp only [List.any_eq_true, beq_iff_eq, List.mem_map]

/-- Helper: a known error code leaves the code list unchanged. -/
theorem updateCounts_codes_known (acc : List ErrorStat) (row : ScanRow)
    (c : String) (h : row.errorCode = some c) (hmem : c ∈ acc.map (·.code)) :
    (updateCounts acc row).map (·.code) = acc.map (·.code) := by
  have hany := (updateCounts_any_iff acc c).2 hmem
  simp only [updateCounts, h, hany, if_true]
  rw [List.map_map]
  apply List.map_congr_left
  intro e _
  by_cases he : e.code = c <;> simp [he]

/-- Helper: a fresh error code is appended to the code list. -/
theorem updateCounts_codes_new (acc : List ErrorStat) (row : ScanRow)
    (c : String) (h : row.errorCode = some c) (hmem : c ∉ acc.map (·.code)) :
    (updateCounts acc row).map (·.code) = acc.map (·.code) ++ [c] := by
  have hany : ¬ (acc.any (·.code == c) = true) :=
    fun ha => hmem ((updateCounts_any_iff acc c).1 ha)
  simp only [updateCounts, h, hany, if_false, Bool.false_eq_true]
  simp

/-- Helper: the error-count fold keeps the code list duplicate-free. -/
theorem foldl_updateCounts_nodup :
    ∀ (rows : List ScanRow) (acc : List ErrorStat),
      (acc.map (·.code)).Nodup →
      ((rows.foldl updateCounts acc).map (·.code)).Nodup := by
  intro rows
  induction rows with
  | nil => exact fun acc h => h
  | cons r t ih =>
    intro acc hacc
    rw [List.foldl_cons]
    apply ih
    cases hrc : r.errorCode with
    | none => rw [updateCounts_codes_none acc r hrc]; exact hacc
    | some c =>
      by_cases hc : c ∈ acc.map (·.code)
      · rw [updateCounts_codes_known acc r c hrc hc]; exact hacc
      · rw [updateCounts_codes_new acc r c hrc hc]
        refine hacc.append (List.nodup_singleton c) ?_
        intro a ha hb
        simp only [List.mem_singleton] at hb
        exact hc (hb ▸ ha)

/-- Helper: the codes collected by the fold are exactly the accumulator
codes plus the codes occurring in the scanned rows. -/
theorem foldl_updateCounts_mem :
    ∀ (rows : List ScanRow) (acc : List ErrorStat) (c : String),
      (c ∈ (rows.foldl updateCounts acc).map (·.code)) ↔
        c ∈ acc.map (·.code) ∨ c ∈ rows.filterMap (·.errorCode) := by
  intro rows
  induction rows with
  | nil => simp
  | cons r t ih =>
    intro acc c
    rw [List.foldl_cons, ih]
    cases hrc : r.errorCode with
    | none =>
      rw [updateCounts_codes_none acc r hrc]
      simp [List.filterMap_cons, hrc]
    | some d =>
      by_cases hd : d ∈ acc.map (·.code)
      · rw [updateCounts_codes_known acc r d hrc hd]
        simp only [List.filterMap_cons, hrc, List.mem_cons]
        constructor
        · rintro (h | h)
          · exact Or.inl h
          · exact Or.inr (Or.inr h)
        · rintro (h | h | h)
          · exact Or.inl h
          · exact Or.inl (h ▸ hd)
          · exact Or.inr h
      · rw [updateCounts_codes_new acc r d hrc hd]
        simp only [List.filterMap_cons, hrc, List.mem_cons, List.mem_append,
          List.mem_singleton]
        tauto

/-- Helper: the number of aggregated error codes is the number of distinct
codes in the scanned rows. -/
theorem errorCounts_length (rows : List ScanRow) :
    (errorCounts rows).length = ((rows.filterMap (·.errorCode)).dedup).length := by
  have hnd : ((errorCounts rows).map (·.code)).Nodup :=
    foldl_updateCounts_nodup rows [] (by simp)
  have hmem : ∀ c, c ∈ (errorCounts rows).map (·.code) ↔
      c ∈ (rows.filterMap (·.errorCode)).dedup := by
    intro c
    rw [List.mem_dedup]
    simpa [errorCounts] using foldl_updateCounts_mem rows [] c
  have hperm : List.Perm ((errorCounts rows).map (·.code))
      ((rows.filterMap (·.errorCode)).dedup) :=
    (List.perm_ext_iff_of_nodup hnd (List.nodup_dedup _)).2 hmem
  calc (errorCounts rows).length
      = ((errorCounts rows).map (·.code)).length := (List.length_map _ _).symm
    _ = _ := hperm.length_eq

/-- Helper: the diagnostics sort order is transitive. -/
theorem issueLE_trans (a b c : DiagnosticIssue) (hab : issueLE a b)
    (hbc : issueLE b c) : issueLE a c := by
  simp only [issueLE, Bool.or_eq_true, Bool.and_eq_true, decide_eq_true_eq,
    beq_iff_eq] at hab hbc ⊢
  omega

/-- Helper: the diagnostics sort order is total. -/
theorem issueLE_total (a b : DiagnosticIssue) : issueLE a b || issueLE b a := by
  simp only [issueLE, Bool.or_eq_true, Bool.and_eq_true, decide_eq_true_eq,
    beq_iff_eq]
  omega

/-- C9: the reported issueCount equals the number of distinct error codes in
the scanned metadata even though the issues list is truncated to the
configured cap; the returned list is the head of the stable sort by severity
rank then descending occurrence count. -/
theorem c9_diagnostics_issue_count (s : Settings)
    (defs : String → Option ErrorDefinition) (rows : List ScanRow) :
    ((diagnose_error_codes s defs rows).issueCount =
      ((rows.filterMap (·.errorCode)).dedup).length) ∧
    ((diagnose_error_codes s defs rows).issues =
      (((errorCounts rows).map (mkIssue defs)).mergeSort issueLE).take
        s.diagnostic_issue_limit) ∧
    ((diagnose_error_codes s defs rows).issues <+:
      ((errorCounts rows).map (mkIssue defs)).mergeSort issueLE) ∧
    (List.Perm (((errorCounts rows).map (mkIssue defs)).mergeSort issueLE)
      ((errorCounts rows).map (mkIssue defs))) ∧
    ((((errorCounts rows).map (mkIssue defs)).mergeSort issueLE).Pairwise
      (fun a b => issueLE a b = true)) := by
  refine ⟨?_, rfl, List.take_prefix _ _, List.mergeSort_perm _ _, ?_⟩
  · have hlen : (diagnose_error_codes s defs rows).issueCount =
        (((errorCounts rows).map (mkIssue defs)).mergeSort issueLE).length := rfl
    rw [hlen, (List.mergeSort_perm _ _).length_eq, List.length_map]
    exact errorCounts_length rows
  · exact List.sorted_mergeSort issueLE_trans issueLE_total _
